import Mathlib

/-!
Shallow embedding of the media-backup script (src/jin.py) for verification.

Python values that flow through the snapshot (None, numbers, strings,
dictionaries) are modelled by the inductive type `PyVal`.  A number is kept
as its decimal digits: `vnum m e` denotes the value `m / 10^e`, and is
rendered (as Python's str() does for the JSON-parsed numbers that occur
here) with exactly `e` digits after the decimal point; an integer is
`vnum m 0` and renders without a point.  Python float arithmetic inside
`battery_bars` is modelled exactly over ℚ; IEEE double rounding of the two
operations `p / 100` and `* 10` is not modelled.
-/

inductive PyVal where
  | vnone : PyVal
  | vnum : Int → Nat → PyVal
  | vstr : String → PyVal
  | vdict : List (String × PyVal) → PyVal

/-- Python truthiness: None, 0 and "" (and the empty dict) are falsy. -/
def PyVal.truthy : PyVal → Bool
  | .vnone => false
  | .vnum m _ => m != 0
  | .vstr s => s != ""
  | .vdict d => !d.isEmpty

/-- Python `a or b`: the first operand when truthy, otherwise the second. -/
def pyOr (a b : PyVal) : PyVal := if a.truthy then a else b

/-- Python `d.get(k)`: look the key up in a dict, None when missing.
On a non-dict the model returns None (the running program only ever calls
`.get` on dicts). -/
def PyVal.get : PyVal → String → PyVal
  | .vdict d, k =>
    match d.find? (fun p => p.1 == k) with
    | some p => p.2
    | none => .vnone
  | _, _ => .vnone

/-- Left-pad a digit string with zeros to length `n`. -/
def padLeftZeros (s : String) (n : Nat) : String :=
  if s.length ≥ n then s else String.mk (List.replicate (n - s.length) '0') ++ s

/-- Decimal rendering of `m / 10^e` with `e` digits after the point,
matching Python's str() on the numbers that occur in the snapshot
(`renderNum 105 1 = "10.5"`, `renderNum 10 0 = "10"`). -/
def renderNum (m : Int) (e : Nat) : String :=
  if e = 0 then toString m
  else
    let sign := if m < 0 then "-" else ""
    let ds := padLeftZeros (toString m.natAbs) (e + 1)
    sign ++ ds.take (ds.length - e) ++ "." ++ ds.drop (ds.length - e)

/-- Python str() as used by the f-strings of jin.py. -/
def PyVal.render : PyVal → String
  | .vnone => "None"
  | .vnum m e => renderNum m e
  | .vstr s => s
  | .vdict _ => "\x7b\x7d"

/-- Python `v == "lit"`: true exactly when `v` is that string. -/
def PyVal.eqStr : PyVal → String → Bool
  | .vstr t, s => t == s
  | _, _ => false

/-- Combined-identifier derivation as written inside
`build_message_from_snapshot` (src/jin.py:1455-1464):
`geo = snap.get("geo", {})`, `lat = geo.get("latitude") or geo.get("lat")`,
`lon = geo.get("longitude") or geo.get("lon")`, then
`f"{ip4}|{lat},{lon}"` when ip4, lat and lon are all truthy,
`f"{ip4}|N/A"` when only ip4 is, and None otherwise. -/
def combinedIdFormatter (snap : PyVal) : Option String :=
  let ip4 := snap.get "public_ipv4"
  let geo := snap.get "geo"
  let lat := pyOr (geo.get "latitude") (geo.get "lat")
  let lon := pyOr (geo.get "longitude") (geo.get "lon")
  if ip4.truthy && lat.truthy && lon.truthy then
    some (ip4.render ++ "|" ++ lat.render ++ "," ++ lon.render)
  else if ip4.truthy then
    some (ip4.render ++ "|N/A")
  else
    none

/-- Combined-identifier derivation as written in the Orchestrator `run`
(src/jin.py:1519-1529): `geo = snapshot.get("geo") or {}` followed by the
same lat/lon extraction and the same conditional f-strings; the result is
attached as `snapshot["combined_id"]`. -/
def combinedIdRun (snapshot : PyVal) : Option String :=
  let ip4 := snapshot.get "public_ipv4"
  let geo := if (snapshot.get "geo").truthy then snapshot.get "geo" else .vdict []
  let lat := pyOr (geo.get "latitude") (geo.get "lat")
  let lon := pyOr (geo.get "longitude") (geo.get "lon")
  if ip4.truthy && lat.truthy && lon.truthy then
    some (ip4.render ++ "|" ++ lat.render ++ "," ++ lon.render)
  else if ip4.truthy then
    some (ip4.render ++ "|N/A")
  else
    none

/-- A snapshot fragment holding just the two fields the combined-identifier
derivations read. -/
def mkSnap (ip4 : PyVal) (geo : List (String × PyVal)) : PyVal :=
  .vdict [("public_ipv4", ip4), ("geo", .vdict geo)]

/-! ## Configuration constants (src/jin.py, CONFIG section) -/

def ALLOWED_EXTS : List String :=
  [".jpg", ".jpeg", ".png", ".webp", ".gif",
   ".mp4", ".mkv", ".mov", ".avi", ".3gp", ".heic"]

def MAX_FILE_SIZE : Nat := 2 * 1024 * 1024 * 1024

def WORKERS : Nat := 12

/-! ## Shared counters (src/jin.py, `counters` dict) -/

structure Counters where
  found : Nat
  queued : Nat
  sent : Nat
  skipped : Nat
  errors : Nat
deriving DecidableEq, Repr

def Counters.init : Counters := ⟨0, 0, 0, 0, 0⟩

/-! ## Path extension (os.path.splitext, posix) -/

/-- Python's str.rfind over the characters of a path: the largest index
holding `c`, or -1 when absent. -/
def rfindIdx (cs : List Char) (c : Char) : Int :=
  (List.range cs.length).foldl
    (fun acc i => if cs.get? i == some c then (i : Int) else acc) (-1)

/-- The extension component of `os.path.splitext` on a posix path: the
suffix from the last dot, provided that dot lies after the last slash and
the basename has at least one non-dot character before it (so ".bashrc"
has no extension). -/
def splitextExt (p : String) : String :=
  let cs := p.data
  let sepIndex := rfindIdx cs '/'
  let dotIndex := rfindIdx cs '.'
  if dotIndex > sepIndex &&
      (List.range cs.length).any
        (fun i => decide (sepIndex + 1 ≤ (i : Int)) && decide ((i : Int) < dotIndex)
          && (cs.get? i != some '.')) then
    String.mk (cs.drop dotIndex.toNat)
  else ""

/-- Python str.lower(), char by char (the extensions involved are
ASCII). -/
def strLower (s : String) : String := String.mk (s.data.map Char.toLower)

/-! ## Allow-list classifier (src/jin.py:1151-1167, `is_allowed_file`) -/

/-- The classifier `is_allowed_file(path)`.  The size argument models
`os.path.getsize(path)`: `none` is an OSError (the except branch, which
counts an error), `some sz` a successful stat.  The result pairs the
returned Bool with the updated shared counters. -/
def is_allowed_file (path : String) (size : Option Nat) (c : Counters) :
    Bool × Counters :=
  let ext := strLower (splitextExt path)
  if ¬ (ALLOWED_EXTS.contains ext) then (false, c)
  else
    match size with
    | none => (false, { c with errors := c.errors + 1 })
    | some sz =>
      if sz = 0 then (false, c)
      else if sz > MAX_FILE_SIZE then (false, { c with skipped := c.skipped + 1 })
      else (true, c)

/-! ## Float conversion and the battery bar (src/jin.py:1112-1118)

Every number reaching `battery_bars` is a decimal value (a JSON-parsed
number or a decimal string); the model carries it as a mantissa/exponent
pair `(m, e)` denoting the exact value `m / 10^e`, and performs the
arithmetic of `battery_bars` exactly over ℚ (IEEE double rounding of the
two float operations is not modelled).  `Rat.divInt` is used instead of
`/` so the kernel can evaluate concrete instances; the lemma
`decValue_div_mul` below certifies that this equals the source-shaped
`p / 100 * 10`. -/

/-- The rational value denoted by the decimal pair `(m, e)`. -/
def decValue (m : Int) (e : Nat) : ℚ := Rat.divInt m (10 ^ e)

def allDigits (cs : List Char) : Bool := cs.all (fun c => c.isDigit)

def digitsToNat (cs : List Char) : Nat :=
  cs.foldl (fun n c => n * 10 + (c.toNat - 48)) 0

/-- Unsigned decimal literal as a mantissa/exponent pair: digits with an
optional fractional part ("5", "5.", ".5", "5.25"); anything else is
rejected.  "a.bc" yields (abc, 2), whose value is abc / 100. -/
def parseUnsignedDec (cs : List Char) : Option (Int × Nat) :=
  match cs.span (fun c => c != '.') with
  | (intPart, rest) =>
    match rest with
    | [] =>
      if intPart ≠ [] ∧ allDigits intPart then
        some ((digitsToNat intPart : Int), 0)
      else none
    | _dot :: fracPart =>
      if (intPart ≠ [] ∨ fracPart ≠ []) ∧ allDigits intPart ∧ allDigits fracPart then
        some ((digitsToNat intPart * 10 ^ fracPart.length + digitsToNat fracPart : Int),
          fracPart.length)
      else none

/-- Python float() on a string, restricted to the plain decimal literals
that occur here (optional sign, digits, optional fraction).  Exponents,
underscores, surrounding whitespace and "inf"/"nan" are outside the model
("nan" and "inf" would in any case produce "N/A" from battery_bars,
because int() raises on them). -/
def pyFloatOfStr (s : String) : Option (Int × Nat) :=
  match s.data with
  | '-' :: rest => (parseUnsignedDec rest).map (fun p => (-p.1, p.2))
  | '+' :: rest => parseUnsignedDec rest
  | cs => parseUnsignedDec cs

/-- Python float(v) as a decimal pair: fails on None and dicts, converts
numbers exactly, parses decimal strings. -/
def PyVal.toFloatDec : PyVal → Option (Int × Nat)
  | .vnone => none
  | .vnum m e => some (m, e)
  | .vstr s => pyFloatOfStr s
  | .vdict _ => none

/-- Python int() on a float value: truncation toward zero. -/
def truncRat (q : ℚ) : Int := if q < 0 then -⌊-q⌋ else ⌊q⌋

/-- battery_bars (src/jin.py:1112-1118): `p = float(percentage)`,
`bars = int((p / 100.0) * 10)`, result `"▮" * bars + "▯" * (10 - bars)`;
any conversion failure is caught and yields "N/A".  With `p = m / 10^e`
the exact value of `(p / 100.0) * 10` is `m / 10^(e+1)`, written here with
`Rat.divInt` (see `decValue_div_mul`).  Python string repetition with a
negative count yields the empty string, which Int.toNat models. -/
def battery_bars (percentage : PyVal) : String :=
  match percentage.toFloatDec with
  | none => "N/A"
  | some (m, e) =>
    let bars := truncRat (Rat.divInt m (10 ^ (e + 1)))
    String.mk (List.replicate bars.toNat '▮' ++ List.replicate (10 - bars).toNat '▯')

/-- The battery-bar derivation inside collect_full_snapshot
(src/jin.py:1346-1350): `perc = battery.get("percentage") or
battery.get("level")` when battery is a dict (else perc stays None), then
`bars = battery_bars(perc) if perc else "N/A"` — the renderer runs only
when the extracted percentage is truthy. -/
def snapshot_battery_bars (battery : PyVal) : String :=
  let perc := pyOr (battery.get "percentage") (battery.get "level")
  if perc.truthy then battery_bars perc else "N/A"

/-! ## Geolocation resolver (src/jin.py:235-261) -/

/-- Which HTTP lookups geolocate_ip performed, in order. -/
inductive GeoCall where
  | primary : GeoCall
  | secondary : GeoCall
deriving DecidableEq, Repr

/-- The remapping of the secondary provider's JSON that geolocate_ip
returns when the status field is "success" (src/jin.py:247-257). -/
def remapSecondary (j : PyVal) : PyVal :=
  .vdict [("ip", j.get "query"), ("latitude", j.get "lat"),
          ("longitude", j.get "lon"), ("city", j.get "city"),
          ("region", j.get "region"), ("country_name", j.get "country"),
          ("org", j.get "org"), ("postal", j.get "postal"),
          ("timezone", j.get "timezone")]

/-- The keys of a dict value, in order. -/
def dictKeys : PyVal → List String
  | .vdict d => d.map (fun p => p.1)
  | _ => []

/-- geolocate_ip (src/jin.py:235-261).  `prim` and `sec` model the two
providers' outcomes: `.error ()` is any request failure (network error,
non-2xx status raised by raise_for_status, or JSON decode error), `.ok j`
a successfully decoded JSON body.  Besides the returned mapping, the model
records which providers were actually queried. -/
def geolocate_ip (ip : PyVal) (prim sec : Except Unit PyVal) :
    PyVal × List GeoCall :=
  if ¬ ip.truthy then (.vdict [], [])
  else
    match prim with
    | .ok j => (j, [.primary])
    | .error _ =>
      match sec with
      | .error _ => (.vdict [], [.primary, .secondary])
      | .ok j =>
        if (j.get "status").eqStr "success" then
          (remapSecondary j, [.primary, .secondary])
        else
          (.vdict [], [.primary, .secondary])

/-! ## Producer scan (src/jin.py:1169-1198) -/

/-- One discovered file in the fixture directory walk: its path together
with its size as os.path.getsize reports it. -/
structure FileEntry where
  path : String
  size : Nat

/-- Producer handling of one discovered file (inner loop of producer_scan,
src/jin.py:1180-1192): count it found, classify it, and on acceptance put
it on the queue and count it queued.  With the stop signal never set the
1 s put / 50 ms backoff retry loop repeats until the put succeeds, so the
put is modelled as an append. -/
def producer_step (st : Counters × List String) (f : FileEntry) :
    Counters × List String :=
  let c := { st.1 with found := st.1.found + 1 }
  match is_allowed_file f.path (some f.size) c with
  | (true, c2) => ({ c2 with queued := c2.queued + 1 }, st.2 ++ [f.path])
  | (false, c2) => (c2, st.2)

/-- producer_scan (src/jin.py:1169-1198) over a fixture walk with the stop
signal never set: every discovered file is processed in walk order.  The
end-of-stream sentinels pushed afterwards (one per worker) carry no
counter effect and are not part of this state. -/
def producer_scan (files : List FileEntry) : Counters × List String :=
  files.foldl producer_step (Counters.init, [])

/-- The file's lowercased extension is in the allow-list. -/
def extAllowed (f : FileEntry) : Bool :=
  ALLOWED_EXTS.contains (strLower (splitextExt f.path))

/-- Passes the filter: allowed extension and size in (0, MAX_FILE_SIZE]. -/
def passesFilter (f : FileEntry) : Bool :=
  extAllowed f && decide (0 < f.size) && decide (f.size ≤ MAX_FILE_SIZE)

/-- Rejected for its extension or for being empty. -/
def disallowedOrZero (f : FileEntry) : Bool :=
  !extAllowed f || decide (f.size = 0)

/-- Allowed extension but over the size limit. -/
def oversizedAllowed (f : FileEntry) : Bool :=
  extAllowed f && decide (f.size > MAX_FILE_SIZE)

/-! ## Upload consumers (src/jin.py:1200-1237) -/

/-- send_document_once (src/jin.py:1200-1214).  `resp` models the outcome
of the HTTP POST for the file: `.error e` an exception (caught, its text
returned), `.ok code` a response with that status code.  Only status 200
is a success; any other code yields the "HTTP {code}" error string.  The
MIME type guessed from the extension only decorates the request and does
not affect the outcome classification. -/
def send_document_once (resp : Except String Nat) : Bool × Option String :=
  match resp with
  | .error e => (false, some e)
  | .ok code =>
    if code = 200 then (true, none)
    else (false, some ("HTTP " ++ toString code))

/-- The counter update a consumer_worker performs for one dequeued path
(src/jin.py:1227-1232): sent on success, errors otherwise.  `outcome`
stubs the messaging endpoint per path. -/
def consumer_step (outcome : String → Except String Nat) (c : Counters)
    (path : String) : Counters :=
  match send_document_once (outcome path) with
  | (true, _) => { c with sent := c.sent + 1 }
  | (false, _) => { c with errors := c.errors + 1 }

/-- Aggregate effect of the worker pool on the counters: each queued file
is dequeued and processed by exactly one worker (task_done accounting), so
the totals are a fold of consumer_step over the processed paths. -/
def consume_all (outcome : String → Except String Nat)
    (paths : List String) (c : Counters) : Counters :=
  paths.foldl (consumer_step outcome) c

/-- A path's upload counts as a success under the stubbed endpoint. -/
def sendSuccess (outcome : String → Except String Nat) (path : String) : Bool :=
  (send_document_once (outcome path)).1

/-- The five-file consumer fixture of the spec's upload-accounting test:
three uploads answered 200, two answered 403. -/
def fixture5 : List String :=
  ["/sdcard/DCIM/ok1.jpg", "/sdcard/DCIM/ok2.jpg", "/sdcard/DCIM/ok3.jpg",
   "/sdcard/DCIM/bad1.mp4", "/sdcard/DCIM/bad2.mp4"]

/-- Stubbed messaging endpoint for `fixture5`: HTTP 200 for the three ok
files, HTTP 403 for the rest. -/
def stubOutcome5 : String → Except String Nat := fun p =>
  if p = "/sdcard/DCIM/ok1.jpg" ∨ p = "/sdcard/DCIM/ok2.jpg"
      ∨ p = "/sdcard/DCIM/ok3.jpg" then
    .ok 200
  else
    .ok 403

/-- Producer fixture: one file per category — an in-range .jpg, a .txt,
a zero-byte .jpg, and an oversized .mp4. -/
def fixtureScan : List FileEntry :=
  [⟨"/sdcard/DCIM/a.jpg", 100⟩,
   ⟨"/sdcard/Download/b.txt", 5⟩,
   ⟨"/sdcard/Pictures/c.jpg", 0⟩,
   ⟨"/sdcard/Movies/d.mp4", 2 * 1024 * 1024 * 1024 + 1⟩]

/-- Bar the spec's claim predicts for a numeric percentage (claim C7),
modelled from the spec's words: `filled = floor(p / 100 * 10)` solid-block
glyphs followed by `10 - filled` light-shade glyphs, repetition counts
clamping at zero as Python string repetition does. -/
def specFloorBar (m : Int) (e : Nat) : String :=
  let filled := ⌊decValue m e / 100 * 10⌋
  String.mk (List.replicate filled.toNat '▮' ++ List.replicate (10 - filled).toNat '▯')

/-! ## Helper lemmas -/

/-- Faithfulness of the divInt shortcut: the exact value of the source's
`(p / 100.0) * 10` at `p = m / 10^e` is `m / 10^(e+1)`. -/
theorem decValue_div_mul (m : Int) (e : Nat) :
    decValue m e / 100 * 10 = Rat.divInt m (10 ^ (e + 1)) := by
  unfold decValue
  rw [Rat.divInt_eq_div, Rat.divInt_eq_div]
  push_cast
  field_simp
  ring

/-- The classifier as a pure function of the file's category: it accepts
exactly the filter-passing files and bumps `skipped` exactly on oversized
allowed-extension files. -/
theorem is_allowed_file_spec (f : FileEntry) (c : Counters) :
    is_allowed_file f.path (some f.size) c =
      (passesFilter f,
        { c with skipped := c.skipped + (if oversizedAllowed f then 1 else 0) }) := by
  unfold is_allowed_file passesFilter oversizedAllowed extAllowed
  by_cases hmem : strLower (splitextExt f.path) ∈ ALLOWED_EXTS
  · have hb : ALLOWED_EXTS.contains (strLower (splitextExt f.path)) = true := by
      simpa using hmem
    by_cases h0 : f.size = 0
    · simp [hb, hmem, h0]
    · by_cases hbig : MAX_FILE_SIZE < f.size
      · simp [hb, hmem, h0, hbig, Nat.not_le.mpr hbig]
      · simp [hb, hmem, h0, hbig, Nat.not_lt.mp hbig, Nat.pos_of_ne_zero h0]
  · have hb : ALLOWED_EXTS.contains (strLower (splitextExt f.path)) = false := by
      simpa using hmem
    simp [hb, hmem]

/-- Exactly one of the three scan categories holds for every file. -/
theorem categories_partition (f : FileEntry) :
    (if passesFilter f then 1 else 0) + (if disallowedOrZero f then 1 else 0)
      + (if oversizedAllowed f then 1 else 0) = 1 := by
  unfold passesFilter disallowedOrZero oversizedAllowed
  cases hx : extAllowed f
  · simp [hx]
  · simp only [hx, Bool.true_and, Bool.not_true, Bool.false_or]
    simp only [decide_eq_true_eq, Bool.and_eq_true]
    split_ifs <;> omega

@[simp] theorem truthy_vnone : (PyVal.vnone).truthy = false := rfl

@[simp] theorem truthy_vnum (m : Int) (e : Nat) :
    (PyVal.vnum m e).truthy = (m != 0) := rfl

@[simp] theorem truthy_vstr (s : String) :
    (PyVal.vstr s).truthy = (s != "") := rfl

@[simp] theorem truthy_vdict (d : List (String × PyVal)) :
    (PyVal.vdict d).truthy = !d.isEmpty := rfl

@[simp] theorem get_vnone (k : String) : PyVal.get .vnone k = .vnone := rfl

@[simp] theorem render_vstr (s : String) : (PyVal.vstr s).render = s := rfl

/-- A successful dict lookup forces the value to be a nonempty dict. -/
theorem get_ne_vnone {v : PyVal} {k : String} (h : v.get k ≠ .vnone) :
    ∃ d, v = .vdict d ∧ d ≠ [] := by
  cases v with
  | vdict d =>
    refine ⟨d, rfl, ?_⟩
    rintro rfl
    simp [PyVal.get] at h
  | vnone => simp [PyVal.get] at h
  | vnum m e => simp [PyVal.get] at h
  | vstr s => simp [PyVal.get] at h

/-! ## Claim theorems -/

/-- C1: is_allowed_file returns true iff the path's lowercased extension
is one of the 11 allowed extensions, the size is strictly positive and at
most 2*1024^3 bytes; a zero-byte allowed-extension file is rejected with
every counter untouched, an oversized allowed-extension file is rejected
incrementing exactly the skipped counter by 1, and a disallowed-extension
file is rejected with every counter (in particular skipped) untouched. -/
theorem allow_list_classifier (path : String) (sz : Nat) (c : Counters) :
    ((is_allowed_file path (some sz) c).1 = true ↔
      (strLower (splitextExt path) ∈ ALLOWED_EXTS ∧ 0 < sz ∧ sz ≤ MAX_FILE_SIZE))
    ∧ (strLower (splitextExt path) ∈ ALLOWED_EXTS → sz = 0 →
        is_allowed_file path (some sz) c = (false, c))
    ∧ (strLower (splitextExt path) ∈ ALLOWED_EXTS → MAX_FILE_SIZE < sz →
        is_allowed_file path (some sz) c =
          (false, { c with skipped := c.skipped + 1 }))
    ∧ (strLower (splitextExt path) ∉ ALLOWED_EXTS →
        is_allowed_file path (some sz) c = (false, c)) := by
  have h := is_allowed_file_spec ⟨path, sz⟩ c
  simp only at h
  refine ⟨?_, ?_, ?_, ?_⟩
  · rw [h]
    unfold passesFilter extAllowed
    simp [Bool.and_eq_true, List.contains_iff_exists_mem_beq]
    constructor
    · rintro ⟨⟨hmem, h1⟩, h2⟩
      exact ⟨hmem, h1, h2⟩
    · rintro ⟨hmem, h1, h2⟩
      exact ⟨⟨hmem, h1⟩, h2⟩
  · intro hmem h0
    rw [h]
    unfold passesFilter oversizedAllowed extAllowed
    have hb : ALLOWED_EXTS.contains (strLower (splitextExt path)) = true := by
      simpa using hmem
    simp [hb, h0]
  · intro hmem hbig
    rw [h]
    unfold passesFilter oversizedAllowed extAllowed
    have hb : ALLOWED_EXTS.contains (strLower (splitextExt path)) = true := by
      simpa using hmem
    simp [hb, hmem, hbig, Nat.not_le.mpr hbig]
  · intro hmem
    rw [h]
    unfold passesFilter oversizedAllowed extAllowed
    have hb : ALLOWED_EXTS.contains (strLower (splitextExt path)) = false := by
      simpa using hmem
    simp [hb, hmem]

/-- Witness for C1 at the spec's three test inputs: a 0-byte .jpg, an
oversized .mp4, and a 10-byte .txt. -/
theorem allow_list_classifier_witness :
    is_allowed_file "/sdcard/DCIM/a.jpg" (some 0) Counters.init
      = (false, Counters.init)
    ∧ is_allowed_file "/sdcard/Movies/b.mp4" (some (2 * 1024 * 1024 * 1024 + 1))
        Counters.init = (false, { Counters.init with skipped := 1 })
    ∧ is_allowed_file "/sdcard/Download/c.txt" (some 10) Counters.init
      = (false, Counters.init) :=
  ⟨(allow_list_classifier "/sdcard/DCIM/a.jpg" 0 Counters.init).2.1
      (by decide) rfl,
   (allow_list_classifier "/sdcard/Movies/b.mp4" (2 * 1024 * 1024 * 1024 + 1)
      Counters.init).2.2.1 (by decide) (by decide),
   (allow_list_classifier "/sdcard/Download/c.txt" 10 Counters.init).2.2.2
      (by decide)⟩

/-- C2: on every snapshot whose geo field is a dict (as every snapshot the
program builds has — collect_full_snapshot always stores a dict there) or
absent, the combined-identifier derivation inside the Report Formatter and
the one in the Orchestrator compute an identical result from the same
public_ipv4 and geo fields. -/
theorem combined_id_derivations_agree (snap : PyVal)
    (hgeo : (∃ d, snap.get "geo" = .vdict d) ∨ snap.get "geo" = .vnone) :
    combinedIdFormatter snap = combinedIdRun snap := by
  unfold combinedIdFormatter combinedIdRun
  rcases hgeo with ⟨d, hd⟩ | hn
  · rw [hd]
    cases d with
    | nil => simp [PyVal.truthy]
    | cons p r => simp [PyVal.truthy]
  · rw [hn]
    simp [PyVal.truthy, PyVal.get]

/-- Witness for C2 on a concrete snapshot with a public IPv4 and both
coordinates. -/
theorem combined_id_derivations_agree_witness :
    combinedIdFormatter (mkSnap (.vstr "1.2.3.4")
        [("latitude", .vnum 105 1), ("longitude", .vnum 205 1)])
      = combinedIdRun (mkSnap (.vstr "1.2.3.4")
        [("latitude", .vnum 105 1), ("longitude", .vnum 205 1)]) :=
  combined_id_derivations_agree _ (Or.inl ⟨_, rfl⟩)

/-- C3: the combined identifier the Orchestrator attaches to the snapshot
is "{ip}|{lat},{lon}" when a public IPv4 and both (truthy) coordinates are
present — concretely "1.2.3.4|10.5,20.5" for IPv4 "1.2.3.4" and
coordinates (10.5, 20.5) — is "{ip}|N/A" when the IPv4 is present but the
geo mapping is empty, and is absent (None) when no public IPv4 was
resolved. -/
theorem combined_id_format :
    (∀ (ip : String) (lat lon : PyVal), ip ≠ "" →
      lat.truthy = true → lon.truthy = true →
      combinedIdRun (mkSnap (.vstr ip) [("latitude", lat), ("longitude", lon)])
        = some (ip ++ "|" ++ lat.render ++ "," ++ lon.render))
    ∧ combinedIdRun (mkSnap (.vstr "1.2.3.4")
        [("latitude", .vnum 105 1), ("longitude", .vnum 205 1)])
      = some "1.2.3.4|10.5,20.5"
    ∧ (∀ (ip : String), ip ≠ "" →
      combinedIdRun (mkSnap (.vstr ip) []) = some (ip ++ "|N/A"))
    ∧ (∀ geo, combinedIdRun (mkSnap .vnone geo) = none) := by
  refine ⟨?_, by rfl, ?_, ?_⟩
  · intro ip lat lon hip hlat hlon
    unfold combinedIdRun mkSnap
    simp [PyVal.get, pyOr, hip, hlat, hlon]
  · intro ip hip
    unfold combinedIdRun mkSnap
    simp [PyVal.get, pyOr, hip]
  · intro geo
    unfold combinedIdRun mkSnap
    simp [PyVal.get, pyOr]

/-- Witness for C3 at IPv4 "1.2.3.4" with coordinates (10.5, 20.5), with
the no-coordinates and no-IP cases at "1.2.3.4" and the empty geo
mapping. -/
theorem combined_id_format_witness :
    combinedIdRun (mkSnap (.vstr "1.2.3.4")
        [("latitude", .vnum 105 1), ("longitude", .vnum 205 1)])
      = some ("1.2.3.4" ++ "|" ++ (PyVal.vnum 105 1).render ++ ","
          ++ (PyVal.vnum 205 1).render)
    ∧ combinedIdRun (mkSnap (.vstr "1.2.3.4") []) = some ("1.2.3.4" ++ "|N/A")
    ∧ combinedIdRun (mkSnap .vnone []) = none :=
  ⟨combined_id_format.1 "1.2.3.4" (.vnum 105 1) (.vnum 205 1)
      (by decide) (by decide) (by decide),
   combined_id_format.2.2.1 "1.2.3.4" (by decide),
   combined_id_format.2.2.2 []⟩

/-- C10: when a public IPv4 is resolved and the geolocation mapping
carries a numerically-zero latitude (or longitude) — `0 or None` is falsy
in Python, so the coordinate extraction treats the zero coordinate as
unavailable — both the Orchestrator and the Report Formatter derive the
combined identifier "{ip}|N/A". -/
theorem zero_coordinate_combined_id (ip : String) (geo : PyVal) (e : Nat)
    (hip : ip ≠ "")
    (h : (geo.get "latitude" = .vnum 0 e ∧ geo.get "lat" = .vnone)
       ∨ (geo.get "longitude" = .vnum 0 e ∧ geo.get "lon" = .vnone)) :
    combinedIdRun (.vdict [("public_ipv4", .vstr ip), ("geo", geo)])
      = some (ip ++ "|N/A")
    ∧ combinedIdFormatter (.vdict [("public_ipv4", .vstr ip), ("geo", geo)])
      = some (ip ++ "|N/A") := by
  have g1 : (PyVal.vdict [("public_ipv4", .vstr ip), ("geo", geo)]).get
      "public_ipv4" = .vstr ip := by simp [PyVal.get]
  have g2 : (PyVal.vdict [("public_ipv4", .vstr ip), ("geo", geo)]).get
      "geo" = geo := by simp [PyVal.get]
  constructor
  · unfold combinedIdRun
    rw [g1, g2]
    cases hg : geo.truthy
    · simp [pyOr, PyVal.get, hip]
    · rcases h with ⟨h1, h2⟩ | ⟨h1, h2⟩
      · simp [pyOr, h1, h2, hip]
      · simp [pyOr, h1, h2, hip]
  · unfold combinedIdFormatter
    rw [g1, g2]
    rcases h with ⟨h1, h2⟩ | ⟨h1, h2⟩
    · simp [pyOr, h1, h2, hip]
    · simp [pyOr, h1, h2, hip]

/-- Witness for C10: IPv4 "1.2.3.4" with a geolocation mapping whose
latitude is the number 0 (a point on the equator) and whose longitude is
20.5. -/
theorem zero_coordinate_combined_id_witness :
    combinedIdRun (.vdict [("public_ipv4", .vstr "1.2.3.4"),
        ("geo", .vdict [("latitude", .vnum 0 0), ("longitude", .vnum 205 1)])])
      = some ("1.2.3.4" ++ "|N/A")
    ∧ combinedIdFormatter (.vdict [("public_ipv4", .vstr "1.2.3.4"),
        ("geo", .vdict [("latitude", .vnum 0 0), ("longitude", .vnum 205 1)])])
      = some ("1.2.3.4" ++ "|N/A") :=
  zero_coordinate_combined_id "1.2.3.4"
    (.vdict [("latitude", .vnum 0 0), ("longitude", .vnum 205 1)]) 0
    (by decide) (Or.inl ⟨rfl, rfl⟩)

/-- A filter-passing file is never in the oversized category. -/
theorem passes_not_oversized {f : FileEntry} (h : passesFilter f = true) :
    oversizedAllowed f = false := by
  unfold passesFilter at h
  unfold oversizedAllowed
  simp only [Bool.and_eq_true, decide_eq_true_eq] at h
  simp only [Bool.and_eq_false_iff, decide_eq_false_iff_not]
  right
  omega

/-- One producer step, written as a pure counter/queue update. -/
theorem producer_step_eq (st : Counters × List String) (f : FileEntry) :
    producer_step st f =
      ({ st.1 with
          found := st.1.found + 1,
          queued := st.1.queued + (if passesFilter f then 1 else 0),
          skipped := st.1.skipped + (if oversizedAllowed f then 1 else 0) },
        st.2 ++ (if passesFilter f then [f.path] else [])) := by
  unfold producer_step
  simp only [is_allowed_file_spec]
  cases hp : passesFilter f
  · simp [hp]
  · simp [hp, passes_not_oversized hp]

/-- Counter effect of scanning any file list from any starting state. -/
theorem producer_fold_counts (files : List FileEntry) (c : Counters)
    (q : List String) :
    ((files.foldl producer_step (c, q)).1.found = c.found + files.length)
    ∧ ((files.foldl producer_step (c, q)).1.queued
        = c.queued + files.countP passesFilter)
    ∧ ((files.foldl producer_step (c, q)).1.skipped
        = c.skipped + files.countP oversizedAllowed) := by
  induction files generalizing c q with
  | nil => simp
  | cons f rest ih =>
    simp only [List.foldl_cons, List.countP_cons, List.length_cons,
      producer_step_eq]
    have h := ih { c with
        found := c.found + 1,
        queued := c.queued + (if passesFilter f then 1 else 0),
        skipped := c.skipped + (if oversizedAllowed f then 1 else 0) }
      (q ++ (if passesFilter f then [f.path] else []))
    refine ⟨?_, ?_, ?_⟩
    · rw [h.1]; simp; omega
    · rw [h.2.1]; simp; omega
    · rw [h.2.2]; simp; omega

/-- The three scan categories partition any file list. -/
theorem countP_categories_length (files : List FileEntry) :
    files.countP passesFilter + files.countP disallowedOrZero
      + files.countP oversizedAllowed = files.length := by
  induction files with
  | nil => simp
  | cons f rest ih =>
    simp only [List.countP_cons, List.length_cons]
    have hc := categories_partition f
    omega

/-- C4: after producer_scan completes over a fixture tree with N
filter-passing files, M files with disallowed extensions or zero size,
and K oversized allowed-extension files (the stop signal never set), the
counters read found = N+M+K, queued = N and skipped = K. -/
theorem scan_counter_consistency (files : List FileEntry) (N M K : Nat)
    (hN : N = files.countP passesFilter)
    (hM : M = files.countP disallowedOrZero)
    (hK : K = files.countP oversizedAllowed) :
    (producer_scan files).1.found = N + M + K
    ∧ (producer_scan files).1.queued = N
    ∧ (producer_scan files).1.skipped = K := by
  have h := producer_fold_counts files Counters.init []
  have hpart := countP_categories_length files
  unfold producer_scan
  subst hN hM hK
  refine ⟨?_, ?_, ?_⟩
  · rw [h.1]; simp [Counters.init]; omega
  · rw [h.2.1]; simp [Counters.init]
  · rw [h.2.2]; simp [Counters.init]

/-- Witness for C4 on the four-file fixture: one in-range .jpg (N=1), a
.txt and a zero-byte .jpg (M=2), and one oversized .mp4 (K=1). -/
theorem scan_counter_consistency_witness :
    (producer_scan fixtureScan).1.found = 1 + 2 + 1
    ∧ (producer_scan fixtureScan).1.queued = 1
    ∧ (producer_scan fixtureScan).1.skipped = 1 :=
  scan_counter_consistency fixtureScan 1 2 1 (by decide) (by decide) (by decide)

/-- One consumer counter update, as a function of the send outcome. -/
theorem consumer_step_eq (outcome : String → Except String Nat) (c : Counters)
    (p : String) :
    consumer_step outcome c p =
      { c with
          sent := c.sent + (if sendSuccess outcome p then 1 else 0),
          errors := c.errors + (if sendSuccess outcome p then 0 else 1) } := by
  unfold consumer_step sendSuccess
  rcases hsd : send_document_once (outcome p) with ⟨b, msg⟩
  cases b
  · simp
  · simp

/-- Counter effect of consuming any path list from any starting state. -/
theorem consume_fold_counts (outcome : String → Except String Nat)
    (paths : List String) (c : Counters) :
    (consume_all outcome paths c).sent
        = c.sent + paths.countP (sendSuccess outcome)
    ∧ (consume_all outcome paths c).errors
        = c.errors + paths.countP (fun p => ! sendSuccess outcome p)
    ∧ (consume_all outcome paths c).sent + (consume_all outcome paths c).errors
        = c.sent + c.errors + paths.length := by
  induction paths generalizing c with
  | nil => simp [consume_all]
  | cons p rest ih =>
    unfold consume_all
    simp only [List.foldl_cons, List.countP_cons, List.length_cons,
      consumer_step_eq]
    have h := ih { c with
        sent := c.sent + (if sendSuccess outcome p then 1 else 0),
        errors := c.errors + (if sendSuccess outcome p then 0 else 1) }
    unfold consume_all at h
    refine ⟨?_, ?_, ?_⟩
    · rw [h.1]; simp; cases hs : sendSuccess outcome p <;> simp [hs] <;> omega
    · rw [h.2.1]; simp; cases hs : sendSuccess outcome p <;> simp [hs] <;> omega
    · rw [h.1, h.2.1]; simp
      cases hs : sendSuccess outcome p <;> simp [hs] <;> omega

/-- C5: every queued file is counted exactly once by the worker pool — a
200-status send bumps sent, a non-200 or raising send bumps errors, and
the two deltas always sum to the number of processed files; on the
five-file fixture with three stubbed successes and two non-200 failures
the final counters read sent = 3 and errors = 2. -/
theorem upload_outcome_accounting :
    (∀ (outcome : String → Except String Nat) (paths : List String)
        (c : Counters),
      (consume_all outcome paths c).sent
          = c.sent + paths.countP (sendSuccess outcome)
      ∧ (consume_all outcome paths c).errors
          = c.errors + paths.countP (fun p => ! sendSuccess outcome p)
      ∧ (consume_all outcome paths c).sent + (consume_all outcome paths c).errors
          = c.sent + c.errors + paths.length)
    ∧ (consume_all stubOutcome5 fixture5 Counters.init).sent = 3
    ∧ (consume_all stubOutcome5 fixture5 Counters.init).errors = 2 := by
  refine ⟨fun outcome paths c => consume_fold_counts outcome paths c, ?_, ?_⟩
  · decide
  · decide

/-- C6: geolocate_ip returns the empty mapping and performs no HTTP call
when no IP is given; when the primary provider fails it queries the
secondary and returns the nine-key remapped mapping exactly when the
secondary's status field equals "success", returning the empty mapping —
never a partially filled one — on any other status or on secondary
failure. -/
theorem geolocation_fallback :
    (∀ (ip : PyVal) (prim sec : Except Unit PyVal), ip.truthy = false →
      geolocate_ip ip prim sec = (.vdict [], []))
    ∧ (∀ (ip j : PyVal), ip.truthy = true →
      (geolocate_ip ip (.error ()) (.ok j)).2 = [.primary, .secondary]
      ∧ dictKeys (remapSecondary j) =
          ["ip", "latitude", "longitude", "city", "region", "country_name",
            "org", "postal", "timezone"]
      ∧ ((geolocate_ip ip (.error ()) (.ok j)).1 = remapSecondary j
          ↔ (j.get "status").eqStr "success" = true)
      ∧ ((j.get "status").eqStr "success" = false →
          (geolocate_ip ip (.error ()) (.ok j)).1 = .vdict []))
    ∧ (∀ ip : PyVal, ip.truthy = true →
      (geolocate_ip ip (.error ()) (.error ())).1 = .vdict []) := by
  refine ⟨?_, ?_, ?_⟩
  · intro ip prim sec hip
    unfold geolocate_ip
    simp [hip]
  · intro ip j hip
    refine ⟨?_, by simp [remapSecondary, dictKeys], ?_, ?_⟩
    · unfold geolocate_ip
      simp only [hip]
      cases hst : (j.get "status").eqStr "success" <;> simp [hst]
    · cases hst : (j.get "status").eqStr "success"
      · have hval : (geolocate_ip ip (.error ()) (.ok j)).1 = .vdict [] := by
          unfold geolocate_ip
          simp [hip, hst]
        rw [hval]
        simp [remapSecondary]
      · unfold geolocate_ip
        simp [hip, hst]
    · unfold geolocate_ip
      intro hst
      simp [hip, hst]
  · intro ip hip
    unfold geolocate_ip
    simp [hip]

/-- Witness for C6: a concrete IP with a failing primary provider and a
secondary response whose status is "success" and whose status is an error
string, plus a falsy IP making no call. -/
theorem geolocation_fallback_witness :
    geolocate_ip .vnone (.error ()) (.error ()) = (.vdict [], [])
    ∧ (geolocate_ip (.vstr "1.2.3.4") (.error ())
        (.ok (.vdict [("status", .vstr "fail"), ("lat", .vnum 105 1)]))).1
      = .vdict []
    ∧ (geolocate_ip (.vstr "1.2.3.4") (.error ())
        (.ok (.vdict [("status", .vstr "fail"), ("lat", .vnum 105 1)]))).2
      = [.primary, .secondary] :=
  ⟨geolocation_fallback.1 .vnone (.error ()) (.error ()) rfl,
   (geolocation_fallback.2.1 (.vstr "1.2.3.4")
      (.vdict [("status", .vstr "fail"), ("lat", .vnum 105 1)])
      (by decide)).2.2.2 (by decide),
   (geolocation_fallback.2.1 (.vstr "1.2.3.4")
      (.vdict [("status", .vstr "fail"), ("lat", .vnum 105 1)])
      (by decide)).1⟩

/-- C7 counterexample: at the numeric percentage -5 the code renders 10
light-shade glyphs (Python int() truncates -0.5 to 0), while the claim's
floor-based reading gives floor(-0.5) = -1 and hence 11 light-shade
glyphs; the two disagree. -/
theorem battery_bars_floor_counterexample :
    battery_bars (.vnum (-5) 0) ≠ specFloorBar (-5) 0
    ∧ battery_bars (.vnum (-5) 0) = String.mk (List.replicate 10 '▯')
    ∧ specFloorBar (-5) 0 = String.mk (List.replicate 11 '▯') := by
  have h : specFloorBar (-5) 0 = String.mk (List.replicate 11 '▯') := by
    unfold specFloorBar
    rw [decValue_div_mul]
    decide
  refine ⟨?_, by decide, h⟩
  rw [h]
  decide

/-- C7 corrected: for every numeric percentage p the bar consists of
`bars = int(p/100*10)` solid-block glyphs followed by `10 - bars`
light-shade glyphs, where int() truncates toward zero (not floor) and a
negative repetition count yields no glyphs; battery_bars(100) is 10 solid,
battery_bars(0) is 10 light, battery_bars(55) is 5 solid then 5 light, and
every input not convertible to a float yields the literal "N/A". -/
theorem battery_bars_rendering :
    (∀ (v : PyVal) (m : Int) (e : Nat), v.toFloatDec = some (m, e) →
      battery_bars v =
        String.mk
          (List.replicate (truncRat (decValue m e / 100 * 10)).toNat '▮'
            ++ List.replicate (10 - truncRat (decValue m e / 100 * 10)).toNat '▯')
      ∧ (battery_bars v).data.count '▮'
          = (truncRat (decValue m e / 100 * 10)).toNat
      ∧ (battery_bars v).data.count '▯'
          = (10 - truncRat (decValue m e / 100 * 10)).toNat)
    ∧ battery_bars (.vnum 100 0) = String.mk (List.replicate 10 '▮')
    ∧ battery_bars (.vnum 0 0) = String.mk (List.replicate 10 '▯')
    ∧ battery_bars (.vnum 55 0)
        = String.mk (List.replicate 5 '▮' ++ List.replicate 5 '▯')
    ∧ (∀ v : PyVal, v.toFloatDec = none → battery_bars v = "N/A") := by
  refine ⟨?_, by decide, by decide, by decide, ?_⟩
  · intro v m e hv
    have hb : battery_bars v =
        String.mk
          (List.replicate (truncRat (Rat.divInt m (10 ^ (e + 1)))).toNat '▮'
            ++ List.replicate (10 - truncRat (Rat.divInt m (10 ^ (e + 1)))).toNat '▯') := by
      unfold battery_bars
      rw [hv]
    rw [decValue_div_mul, hb]
    have hne : ('▮' : Char) ≠ '▯' := by decide
    refine ⟨rfl, ?_, ?_⟩
    · simp [List.count_append, List.count_replicate, hne]
    · simp [List.count_append, List.count_replicate, hne, Ne.symm hne]
  · intro v hv
    unfold battery_bars
    rw [hv]

/-- Witness for C7 at the numeric percentage 55. -/
theorem battery_bars_rendering_witness :
    battery_bars (.vnum 55 0) =
      String.mk
        (List.replicate (truncRat (decValue 55 0 / 100 * 10)).toNat '▮'
          ++ List.replicate (10 - truncRat (decValue 55 0 / 100 * 10)).toNat '▯') :=
  (battery_bars_rendering.1 (.vnum 55 0) 55 0 rfl).1

/-- C8 counterexample: the numeric percentage 150 is outside 0..100 and
yields a 15-glyph bar, not a 10-glyph one. -/
theorem battery_bar_length_counterexample :
    (battery_bars (.vnum 150 0)).length = 15
    ∧ ¬ (battery_bars (.vnum 150 0)).length = 10 := by decide

/-- C8 corrected: the 10-position guarantee holds on the nominal range:
for every numeric percentage p with 0 ≤ p ≤ 100 the rendered bar has
exactly 10 glyph positions.  (Outside that range it fails: see the
counterexample at 150, which renders 15 glyphs.) -/
theorem battery_bar_length (v : PyVal) (m : Int) (e : Nat)
    (hv : v.toFloatDec = some (m, e))
    (h0 : 0 ≤ decValue m e) (h100 : decValue m e ≤ 100) :
    (battery_bars v).length = 10 := by
  have hq0 : 0 ≤ decValue m e / 100 * 10 := by
    have := div_nonneg h0 (by norm_num : (0:ℚ) ≤ 100)
    nlinarith
  have hq10 : decValue m e / 100 * 10 ≤ 10 := by
    rw [div_mul_eq_mul_div, div_le_iff₀ (by norm_num : (0:ℚ) < 100)]
    nlinarith
  rw [decValue_div_mul] at hq0 hq10
  have ht0 : 0 ≤ truncRat (Rat.divInt m (10 ^ (e + 1))) := by
    unfold truncRat
    rw [if_neg (by exact not_lt.mpr hq0)]
    exact Int.floor_nonneg.mpr hq0
  have ht10 : truncRat (Rat.divInt m (10 ^ (e + 1))) ≤ 10 := by
    unfold truncRat
    rw [if_neg (by exact not_lt.mpr hq0)]
    calc ⌊Rat.divInt m (10 ^ (e + 1))⌋ ≤ ⌊(10 : ℚ)⌋ := Int.floor_le_floor hq10
    _ = 10 := by norm_num
  unfold battery_bars
  rw [hv]
  simp only [String.length]
  simp only [List.length_append, List.length_replicate]
  omega

/-- Witness for C8 at the numeric percentage 55. -/
theorem battery_bar_length_witness : (battery_bars (.vnum 55 0)).length = 10 :=
  battery_bar_length (.vnum 55 0) 55 0 rfl (by decide) (by decide)

/-- C9: a battery record whose percentage field is the number 0 (with the
level field absent or likewise 0 — Python `0 or None` and `0 or 0` are
both falsy) makes the assembler skip the renderer, so the snapshot's
battery_bars field is the literal "N/A" and not the 10-light-glyph bar
that battery_bars would produce for the value 0; symmetrically when only
the level field is present and 0. -/
theorem zero_percentage_battery_bars (battery : PyVal) (e e2 : Nat)
    (hp : battery.get "percentage" = .vnum 0 e
        ∨ battery.get "percentage" = .vnone)
    (hl : battery.get "level" = .vnum 0 e2 ∨ battery.get "level" = .vnone) :
    snapshot_battery_bars battery = "N/A"
    ∧ "N/A" ≠ String.mk (List.replicate 10 '▯')
    ∧ battery_bars (.vnum 0 e) = String.mk (List.replicate 10 '▯') := by
  refine ⟨?_, by decide, ?_⟩
  · unfold snapshot_battery_bars
    rcases hp with hp | hp <;> rcases hl with hl | hl <;> simp [pyOr, hp, hl]
  · unfold battery_bars
    simp only [PyVal.toFloatDec]
    have hz : Rat.divInt 0 ((10:Int) ^ (e + 1)) = 0 := by simp
    rw [hz]
    have ht : truncRat 0 = 0 := by
      unfold truncRat
      simp
    rw [ht]
    simp

/-- Witness for C9: a battery record reporting percentage 0 and no level
field. -/
theorem zero_percentage_battery_bars_witness :
    snapshot_battery_bars (.vdict [("percentage", .vnum 0 0)]) = "N/A" :=
  (zero_percentage_battery_bars (.vdict [("percentage", .vnum 0 0)]) 0 0
    (Or.inl rfl) (Or.inr rfl)).1
